import Mathlib

/-!
Verification of the DHT11 metrics web server (`main.py`, MicroPython, release 0.3).

The program is a single file: startup (LED, MAC query, `secrets` import, Wi-Fi
connect, socket bind/listen), a sensor-read helper `read_dht_data`, and an
infinite main loop that accepts one client, reads the request, reads the
sensor, renders a Prometheus exposition body, sends a fixed HTTP header plus
the body, and closes the connection, with `except OSError` / `except Exception`
handlers that both `continue`.

Shallow embedding conventions:
- Exceptions are modelled by `PyExc` (`osError` for `OSError`, `generalError`
  for every other `Exception`); fallible external calls (accept, recv, sensor
  measurement, send, close) are inputs of type `Except PyExc _` collected in
  `IterEnv`, one record per loop iteration.
- The DHT11 driver returns integer temperature and humidity, so raw readings
  are modelled as `ℤ`; Python's `f"{v:.1f}"` applied to an integer value
  renders the integer followed by ".0" (`format_1f`).
- `bytes.decode('utf-8')` succeeds exactly on RFC 3629 valid UTF-8 byte
  sequences (`utf8Valid`) and raises `UnicodeError` (a non-OSError
  `Exception`) otherwise.
- `print` calls and the LED writes are I/O without influence on control flow
  and are not recorded; the Wi-Fi reconnect block (lines 93-102) blocks until
  reconnected and is modelled as non-raising, per the NetworkLink contract.
- String literals reproduce the exact f-string bodies of lines 115-126 and
  128-137; `\x7b`/`\x7d` denote the literal braces of the label sets.
-/

/-- Python exception classes distinguished by the program's handlers:
`OSError` (caught by `except OSError`) versus any other `Exception`
(caught by `except Exception`). -/
inductive PyExc where
  | osError
  | generalError
deriving DecidableEq, Repr

/-- Wi-Fi credentials provided by `secrets.py` (`secrets.ssid`,
`secrets.password`), lines 50-52. -/
structure Credentials where
  ssid : String
  password : String
deriving DecidableEq, Repr

/-- Observable startup actions of the module top level (lines 31-77), in
program order. -/
inductive StartupStep where
  | ledInit
  | macQuery
  | secretsImport
  | sensorInit
  | wifiConnect
  | socketBind
  | socketListen
  | enterMainLoop
deriving DecidableEq, Repr

/-- Module top level before the main loop (lines 31-77): LED init, MAC query
(whose `try/except OSError` continues either way, lines 37-47), the loading of
`secrets` whose `ImportError` is re-raised (lines 49-55), then sensor init, Wi-Fi
connect, socket bind and listen, and entry into the main loop.  `macOk` is
whether `wlan.config('mac')` succeeds; `secretsModule` is `none` when
`secrets.py` is absent (the `ImportError` case). -/
def startupTrace (macOk : Bool) (secretsModule : Option Credentials) :
    List StartupStep :=
  match macOk, secretsModule with
  | _, none =>
      [.ledInit, .macQuery, .secretsImport]
  | _, some _ =>
      [.ledInit, .macQuery, .secretsImport, .sensorInit, .wifiConnect,
       .socketBind, .socketListen, .enterMainLoop]

/-- Result of the startup sequence: the re-raised `ImportError` of lines 53-55
(the ConfigFault) when `secrets.py` is absent, the loaded credentials
otherwise. -/
def startup (secretsModule : Option Credentials) : Except PyExc Credentials :=
  match secretsModule with
  | none => .error .generalError
  | some c => .ok c

/-- UTF-8 continuation byte (`0x80`-`0xBF`). -/
def utf8Cont (b : ℕ) : Bool := 0x80 ≤ b && b ≤ 0xBF

/-- RFC 3629 validity of a byte sequence: the success condition of
`bytes.decode('utf-8')` at line 107 (overlong encodings, surrogates and
out-of-range lead bytes are rejected). -/
def utf8Valid : List ℕ → Bool
  | [] => true
  | b :: rest =>
    if b ≤ 0x7F then utf8Valid rest
    else if 0xC2 ≤ b && b ≤ 0xDF then
      match rest with
      | c :: rest2 => utf8Cont c && utf8Valid rest2
      | [] => false
    else if b == 0xE0 then
      match rest with
      | c :: d :: rest2 => (0xA0 ≤ c && c ≤ 0xBF) && utf8Cont d && utf8Valid rest2
      | _ => false
    else if (0xE1 ≤ b && b ≤ 0xEC) || b == 0xEE || b == 0xEF then
      match rest with
      | c :: d :: rest2 => utf8Cont c && utf8Cont d && utf8Valid rest2
      | _ => false
    else if b == 0xED then
      match rest with
      | c :: d :: rest2 => (0x80 ≤ c && c ≤ 0x9F) && utf8Cont d && utf8Valid rest2
      | _ => false
    else if b == 0xF0 then
      match rest with
      | c :: d :: e :: rest2 =>
          (0x90 ≤ c && c ≤ 0xBF) && utf8Cont d && utf8Cont e && utf8Valid rest2
      | _ => false
    else if 0xF1 ≤ b && b ≤ 0xF3 then
      match rest with
      | c :: d :: e :: rest2 =>
          utf8Cont c && utf8Cont d && utf8Cont e && utf8Valid rest2
      | _ => false
    else if b == 0xF4 then
      match rest with
      | c :: d :: e :: rest2 =>
          (0x80 ≤ c && c ≤ 0x8F) && utf8Cont d && utf8Cont e && utf8Valid rest2
      | _ => false
    else false

/-- Python's `f"{v:.1f}"` applied to the integer sensor values of the DHT11
driver (lines 131 and 135): the integer rendered by `str`, followed by a
decimal point and the single fractional digit `0`. -/
def format_1f (v : ℤ) : String := toString v ++ ".0"

/-- The `# HELP` header line of the temperature series (lines 117 and 129). -/
def helpTempLine : String := "# HELP temperature Temperature from DHT11 sensor"

/-- The `# TYPE` header line of the temperature series (lines 118 and 130). -/
def typeTempLine : String := "# TYPE temperature gauge"

/-- The `# HELP` header line of the humidity series (lines 123 and 133). -/
def helpHumLine : String := "# HELP Humidity Temperature from DHT11 sensor"

/-- The `# TYPE` header line of the humidity series (lines 124 and 134). -/
def typeHumLine : String := "# TYPE Humidity gauge"

/-- The temperature series sample line
`temperature{sensor="dht11",location="GH_trial"} <value> <timestamp>`
(lines 120 and 131), with the sample value already rendered to a string. -/
def tempSeriesLine (v : String) (t : ℤ) : String :=
  "temperature\x7bsensor=\"dht11\",location=\"GH_trial\"\x7d " ++ v ++ " " ++ toString t

/-- The humidity series sample line
`humidity{sensor="dht11",location="GH_trial"} <value> <timestamp>`
(lines 125 and 135), with the sample value already rendered to a string. -/
def humSeriesLine (v : String) (t : ℤ) : String :=
  "humidity\x7bsensor=\"dht11\",location=\"GH_trial\"\x7d " ++ v ++ " " ++ toString t

/-- The f-string body of the sensor-failure branch (lines 115-126), with both
sample values the literal `NaN`.  Layout (leading blank line, blank line
before the temperature sample, two blank lines before the humidity block)
reproduces the source literal exactly. -/
def prometheus_output_nan (t : ℤ) : String :=
  "\n\n" ++ helpTempLine ++ "\n" ++ typeTempLine ++ "\n\n" ++
    tempSeriesLine "NaN" t ++ "\n\n\n" ++ helpHumLine ++ "\n" ++
    typeHumLine ++ "\n" ++ humSeriesLine "NaN" t ++ "\n"

/-- The f-string body of the successful-reading branch (lines 128-137), with
the two sample values already rendered to strings (the source renders them
with `:.1f`).  Layout reproduces the source literal exactly. -/
def prometheus_output_ok (tv hv : String) (t : ℤ) : String :=
  "\n" ++ helpTempLine ++ "\n" ++ typeTempLine ++ "\n" ++
    tempSeriesLine tv t ++ "\n\n" ++ helpHumLine ++ "\n" ++
    typeHumLine ++ "\n" ++ humSeriesLine hv t ++ "\n\n"

/-- Which arm of the `if temp is None and hum is None` conditional at line 114
is taken. -/
inductive RenderBranch where
  | nanBranch
  | valueBranch
deriving DecidableEq, Repr

/-- The guard of line 114: the NaN branch is taken exactly when both
components of the reading are `None`. -/
def renderBranch (temp hum : Option ℤ) : RenderBranch :=
  if temp = none ∧ hum = none then .nanBranch else .valueBranch

/-- The body-construction conditional of lines 114-137.  In the value branch
the source formats each component with `:.1f`; if a component were `None`
there, the f-string would raise `TypeError` (a non-OSError `Exception`),
modelled by the `generalError` case. -/
def renderMetrics (temp hum : Option ℤ) (t : ℤ) : Except PyExc String :=
  match renderBranch temp hum with
  | .nanBranch => .ok (prometheus_output_nan t)
  | .valueBranch =>
    match temp, hum with
    | some tv, some hv => .ok (prometheus_output_ok (format_1f tv) (format_1f hv) t)
    | _, _ => .error .generalError

/-- The helper `read_dht_data` (lines 80-88): on a successful measurement it
returns the raw temperature minus 20 and the raw humidity unmodified; an
`OSError` from the sensor is caught and yields `(None, None)`; any other
exception is not caught by its `except OSError` clause and propagates. -/
def read_dht_data (sensorRes : Except PyExc (ℤ × ℤ)) :
    Except PyExc (Option ℤ × Option ℤ) :=
  match sensorRes with
  | .ok (t, h) => .ok (some (t - 20), some h)
  | .error .osError => .ok (none, none)
  | .error .generalError => .error .generalError

/-- The fixed response header sent at line 138. -/
def httpHeader : String := "HTTP/1.0 200 OK\r\nContent-type: text/plain\r\n\r\n"

/-- External outcomes of one main-loop iteration's fallible calls: the result
of `s.accept()` (line 105), the bytes returned by `conn.recv(1024)` (line
107), the sensor measurement consumed by `read_dht_data` (line 110), the
clock value `int(time.time())` (line 111), and the results of the two
`conn.send` calls (lines 138-139) and of `conn.close()` (line 140).
`wifiUpAtStart` is the `wlan.isconnected()` poll of line 93. -/
structure IterEnv where
  wifiUpAtStart : Bool
  acceptRes : Except PyExc Unit
  recvRes : Except PyExc (List ℕ)
  sensorRes : Except PyExc (ℤ × ℤ)
  now : ℤ
  sendHeadRes : Except PyExc Unit
  sendBodyRes : Except PyExc Unit
  closeRes : Except PyExc Unit
deriving Repr

/-- Observable effects of the `try` block of one iteration: whether a client
connection was accepted, the chunks actually delivered by successful
`conn.send` calls, and whether `conn.close()` was reached. -/
structure IterTrace where
  accepted : Bool
  sentChunks : List String
  closeCalled : Bool
deriving DecidableEq, Repr

/-- Lines 110-140, after the request has been received and decoded: sensor
read via `read_dht_data`, clock snapshot, body construction, `conn.send` of
the header, `conn.send` of the body, `conn.close()`.  The second component is
the exception escaping, if any; a failed step stops the sequence at that
point, so `conn.close()` is reached only when both sends succeeded. -/
def serveConn (env : IterEnv) : IterTrace × Option PyExc :=
  match read_dht_data env.sensorRes with
  | .error f => (⟨true, [], false⟩, some f)
  | .ok (temp, hum) =>
    match renderMetrics temp hum env.now with
    | .error f => (⟨true, [], false⟩, some f)
    | .ok body =>
      match env.sendHeadRes with
      | .error f => (⟨true, [], false⟩, some f)
      | .ok _ =>
        match env.sendBodyRes with
        | .error f => (⟨true, [httpHeader], false⟩, some f)
        | .ok _ =>
          match env.closeRes with
          | .error f => (⟨true, [httpHeader, body], true⟩, some f)
          | .ok _ => (⟨true, [httpHeader, body], true⟩, none)

/-- The `try` block of the main loop (lines 104-141), step by step in source
order: accept (line 105), recv + UTF-8 decode (line 107), then `serveConn`.
The second component is the exception escaping the block, if any. -/
def tryBody (env : IterEnv) : IterTrace × Option PyExc :=
  match env.acceptRes with
  | .error f => (⟨false, [], false⟩, some f)
  | .ok _ =>
    match env.recvRes with
    | .error f => (⟨true, [], false⟩, some f)
    | .ok bs =>
      if utf8Valid bs then
        serveConn env
      else
        (⟨true, [], false⟩, some .generalError)

/-- Outcome of one full iteration of `while True` (lines 91-148): whether the
Wi-Fi reconnect block ran, the trace of the `try` block, and whether control
reaches the next iteration (`continues`). -/
structure IterResult where
  reconnectPerformed : Bool
  trace : IterTrace
  continues : Bool
deriving Repr

/-- One full iteration of the main loop: the reconnect block of lines 93-102
(which blocks until reconnected and does not raise), then the `try` block,
then the two handlers `except OSError` (lines 143-145) and `except Exception`
(lines 146-148), each of which logs and executes `continue`. -/
def loopIteration (env : IterEnv) : IterResult :=
  let rp := !env.wifiUpAtStart
  match tryBody env with
  | (tr, none) => ⟨rp, tr, true⟩
  | (tr, some .osError) => ⟨rp, tr, true⟩
  | (tr, some .generalError) => ⟨rp, tr, true⟩

/-- All transport-level calls of the iteration succeed and the request bytes
decode as UTF-8. -/
def transportOk (env : IterEnv) : Bool :=
  env.acceptRes.isOk &&
  (match env.recvRes with | .ok bs => utf8Valid bs | .error _ => false) &&
  env.sendHeadRes.isOk && env.sendBodyRes.isOk && env.closeRes.isOk

/-- Every step of the iteration strictly before `conn.close()` succeeds:
accept, recv + decode, sensor read (no propagating exception), body
construction, and both sends. -/
def preCloseOk (env : IterEnv) : Bool :=
  env.acceptRes.isOk &&
  (match env.recvRes with | .ok bs => utf8Valid bs | .error _ => false) &&
  (match read_dht_data env.sensorRes with
   | .ok (temp, hum) => (renderMetrics temp hum env.now).isOk
   | .error _ => false) &&
  env.sendHeadRes.isOk && env.sendBodyRes.isOk

/-- Substring containment by explicit decomposition. -/
def strContains (s sub : String) : Prop := ∃ pre post, s = pre ++ sub ++ post

/-- The shape `f"{v:.1f}"` guarantees: some string followed by a decimal
point followed by one decimal digit. -/
def hasOneDecimalDigit (s : String) : Prop :=
  ∃ a, ∃ d : ℕ, d < 10 ∧ s = a ++ "." ++ toString d

/-- Split a character list at newline characters (the line structure of a
rendered body). -/
def splitNL : List Char → List (List Char)
  | [] => [[]]
  | c :: cs =>
    if c = '\n' then [] :: splitNL cs
    else
      match splitNL cs with
      | [] => [[c]]
      | l :: ls => (c :: l) :: ls

/-- The non-blank lines of a string, as character lists. -/
def nonBlankLines (s : String) : List (List Char) :=
  (splitNL s.data).filter (fun l => !l.isEmpty)

/-- A character list without newline characters (a single rendered line). -/
abbrev noNewline (l : List Char) : Prop := ∀ c ∈ l, c ≠ '\n'

/-- Iteration environment: sensor raises `OSError`, transport fully healthy,
request `GET`, clock 1700000000. -/
def envSensorDown : IterEnv :=
  ⟨true, .ok (), .ok [71, 69, 84], .error .osError, 1700000000, .ok (), .ok (), .ok ()⟩

/-- Iteration environment: healthy sensor reading raw (42, 55), header send
succeeds, body send raises `OSError`. -/
def envBodySendFail : IterEnv :=
  ⟨true, .ok (), .ok [71, 69, 84], .ok (42, 55), 1700000000, .ok (), .error .osError, .ok ()⟩

/-- Iteration environment: request bytes `GET / HTTP/1.0`, sensor raw
(42, 55), clock 1700000000, all transport calls succeed. -/
def envReqA : IterEnv :=
  ⟨true, .ok (), .ok [71, 69, 84, 32, 47, 32, 72, 84, 84, 80, 47, 49, 46, 48],
   .ok (42, 55), 1700000000, .ok (), .ok (), .ok ()⟩

/-- Iteration environment like `envReqA` but with request bytes
`POST /other`. -/
def envReqB : IterEnv :=
  ⟨true, .ok (), .ok [80, 79, 83, 84, 32, 47, 111, 116, 104, 101, 114],
   .ok (42, 55), 1700000000, .ok (), .ok (), .ok ()⟩

/-- Iteration environment like `envReqA` but whose request is the single
byte `0xFF`, which is not valid UTF-8. -/
def envReqBad : IterEnv :=
  ⟨true, .ok (), .ok [255], .ok (42, 55), 1700000000, .ok (), .ok (), .ok ()⟩

/-! ## Fidelity of the rendered literals

The composed bodies spell, character for character, the f-string literals of
lines 115-126 and 128-137 with the sample values and the timestamp
substituted. -/

set_option maxRecDepth 10000 in
theorem prometheus_output_nan_literal :
    prometheus_output_nan 1700000000 =
      "\n\n# HELP temperature Temperature from DHT11 sensor\n# TYPE temperature gauge\n\ntemperature\x7bsensor=\"dht11\",location=\"GH_trial\"\x7d NaN 1700000000\n\n\n# HELP Humidity Temperature from DHT11 sensor\n# TYPE Humidity gauge\nhumidity\x7bsensor=\"dht11\",location=\"GH_trial\"\x7d NaN 1700000000\n" := by
  rfl

set_option maxRecDepth 10000 in
theorem prometheus_output_ok_literal :
    prometheus_output_ok (format_1f 22) (format_1f 55) 1700000000 =
      "\n# HELP temperature Temperature from DHT11 sensor\n# TYPE temperature gauge\ntemperature\x7bsensor=\"dht11\",location=\"GH_trial\"\x7d 22.0 1700000000\n\n# HELP Humidity Temperature from DHT11 sensor\n# TYPE Humidity gauge\nhumidity\x7bsensor=\"dht11\",location=\"GH_trial\"\x7d 55.0 1700000000\n\n" := by
  rfl

/-! ## Claim C3 -/

/-- Claim C3: for every successful sensor measurement with raw temperature
`r` and raw humidity `h`, `read_dht_data` reports `r - 20` as the temperature
component and returns the humidity component unmodified. -/
theorem c3_calibration_offset (r h : ℤ) :
    read_dht_data (.ok (r, h)) = .ok (some (r - 20), some h) := rfl

/-! ## Claim C4 -/

/-- Claim C4: for every integer timestamp `t`, rendering with an absent
reading yields the NaN body, which contains both the temperature series line
and the humidity series line with literal sample value `NaN` and
timestamp `t`. -/
theorem c4_nan_render (t : ℤ) :
    renderMetrics none none t = .ok (prometheus_output_nan t)
    ∧ strContains (prometheus_output_nan t) (tempSeriesLine "NaN" t)
    ∧ strContains (prometheus_output_nan t) (humSeriesLine "NaN" t) := by
  refine ⟨rfl, ?_, ?_⟩
  · refine ⟨"\n\n" ++ helpTempLine ++ "\n" ++ typeTempLine ++ "\n\n",
      "\n\n\n" ++ helpHumLine ++ "\n" ++ typeHumLine ++ "\n" ++
        humSeriesLine "NaN" t ++ "\n", ?_⟩
    simp [prometheus_output_nan, String.append_assoc]
  · refine ⟨"\n\n" ++ helpTempLine ++ "\n" ++ typeTempLine ++ "\n\n" ++
      tempSeriesLine "NaN" t ++ "\n\n\n" ++ helpHumLine ++ "\n" ++
        typeHumLine ++ "\n", "\n", ?_⟩
    simp [prometheus_output_nan, String.append_assoc]

/-! ## Claim C8 -/

/-- Claim C8: when `secrets.py` is absent, the `ImportError` is re-raised at
line 55 and the process halts before the Wi-Fi connect (line 64), the socket
bind/listen (lines 75-76), and the main loop -- whether or not the earlier
MAC query succeeded. -/
theorem c8_missing_credentials_fatal (macOk : Bool) :
    startup none = .error .generalError
    ∧ startupTrace macOk none = [.ledInit, .macQuery, .secretsImport]
    ∧ (startupTrace macOk none).contains .wifiConnect = false
    ∧ (startupTrace macOk none).contains .socketBind = false
    ∧ (startupTrace macOk none).contains .socketListen = false
    ∧ (startupTrace macOk none).contains .enterMainLoop = false := by
  cases macOk <;> exact ⟨rfl, rfl, rfl, rfl, rfl, rfl⟩

/-! ## Claim C9 -/

/-- Claim C9: `read_dht_data` is all-or-nothing -- it never produces a pair
with exactly one component present -- and the guard of line 114 selects the
NaN branch exactly when both components are absent. -/
theorem c9_reading_all_or_nothing (res : Except PyExc (ℤ × ℤ)) :
    (read_dht_data res = .error .generalError
      ∨ read_dht_data res = .ok (none, none)
      ∨ ∃ a b, read_dht_data res = .ok (some a, some b))
    ∧ (∀ temp hum, read_dht_data res = .ok (temp, hum) → (temp = none ↔ hum = none))
    ∧ (∀ temp hum : Option ℤ,
        renderBranch temp hum = .nanBranch ↔ temp = none ∧ hum = none) := by
  refine ⟨?_, ?_, ?_⟩
  · rcases res with f | ⟨t, h⟩
    · cases f
      · exact Or.inr (Or.inl rfl)
      · exact Or.inl rfl
    · exact Or.inr (Or.inr ⟨t - 20, h, rfl⟩)
  · intro temp hum heq
    rcases res with f | ⟨t, h⟩
    · cases f
      · simp only [read_dht_data, Except.ok.injEq, Prod.mk.injEq] at heq
        simp [← heq.1, ← heq.2]
      · simp [read_dht_data] at heq
    · simp only [read_dht_data, Except.ok.injEq, Prod.mk.injEq] at heq
      simp [← heq.1, ← heq.2]
  · intro temp hum
    unfold renderBranch
    by_cases hc : temp = none ∧ hum = none
    · simp [hc]
    · simp [hc]

/-- Witness for C9 at the concrete sensor outcome `OSError`: the reading is
`(None, None)`, the two components agree on absence, and the NaN branch is
selected. -/
theorem c9_reading_all_or_nothing_witness :
    ((none : Option ℤ) = none ↔ (none : Option ℤ) = none)
    ∧ (renderBranch (none : Option ℤ) (none : Option ℤ) = .nanBranch ↔
        (none : Option ℤ) = none ∧ (none : Option ℤ) = none) :=
  ⟨(c9_reading_all_or_nothing (.error .osError)).2.1 none none rfl,
   (c9_reading_all_or_nothing (.error .osError)).2.2 none none⟩

/-! ## Claim C5 -/

/-- Shape of `f"{v:.1f}"` output: a string followed by a decimal point and a
single decimal digit. -/
theorem format_1f_one_decimal (v : ℤ) : hasOneDecimalDigit (format_1f v) := by
  refine ⟨toString v, 0, by norm_num, ?_⟩
  have h : ("." : String) ++ toString (0 : ℕ) = ".0" := rfl
  simp [format_1f, String.append_assoc, h]

set_option maxRecDepth 10000 in
/-- Claim C5: a successful raw reading `(x, y)` is calibrated to
`(x - 20, y)`, rendered into the success body whose temperature and humidity
sample lines carry the values formatted with exactly one fractional digit and
the timestamp; at raw temperature 42, humidity 55, timestamp 1700000000 the
body contains the two exact sample lines of the end-to-end scenario. -/
theorem c5_value_render (x y t : ℤ) :
    read_dht_data (.ok (x, y)) = .ok (some (x - 20), some y)
    ∧ renderMetrics (some (x - 20)) (some y) t =
        .ok (prometheus_output_ok (format_1f (x - 20)) (format_1f y) t)
    ∧ strContains (prometheus_output_ok (format_1f (x - 20)) (format_1f y) t)
        (tempSeriesLine (format_1f (x - 20)) t)
    ∧ strContains (prometheus_output_ok (format_1f (x - 20)) (format_1f y) t)
        (humSeriesLine (format_1f y) t)
    ∧ hasOneDecimalDigit (format_1f (x - 20))
    ∧ hasOneDecimalDigit (format_1f y)
    ∧ strContains (prometheus_output_ok (format_1f (42 - 20)) (format_1f 55) 1700000000)
        "temperature\x7bsensor=\"dht11\",location=\"GH_trial\"\x7d 22.0 1700000000"
    ∧ strContains (prometheus_output_ok (format_1f (42 - 20)) (format_1f 55) 1700000000)
        "humidity\x7bsensor=\"dht11\",location=\"GH_trial\"\x7d 55.0 1700000000" := by
  refine ⟨rfl, rfl, ?_, ?_, format_1f_one_decimal _, format_1f_one_decimal _, ?_, ?_⟩
  · refine ⟨"\n" ++ helpTempLine ++ "\n" ++ typeTempLine ++ "\n",
      "\n\n" ++ helpHumLine ++ "\n" ++ typeHumLine ++ "\n" ++
        humSeriesLine (format_1f y) t ++ "\n\n", ?_⟩
    simp [prometheus_output_ok, String.append_assoc]
  · refine ⟨"\n" ++ helpTempLine ++ "\n" ++ typeTempLine ++ "\n" ++
      tempSeriesLine (format_1f (x - 20)) t ++ "\n\n" ++ helpHumLine ++ "\n" ++
        typeHumLine ++ "\n", "\n\n", ?_⟩
    simp [prometheus_output_ok, String.append_assoc]
  · exact ⟨"\n" ++ helpTempLine ++ "\n" ++ typeTempLine ++ "\n",
      "\n\n" ++ helpHumLine ++ "\n" ++ typeHumLine ++ "\n" ++
        humSeriesLine (format_1f 55) 1700000000 ++ "\n\n", by rfl⟩
  · exact ⟨"\n" ++ helpTempLine ++ "\n" ++ typeTempLine ++ "\n" ++
      tempSeriesLine (format_1f (42 - 20)) 1700000000 ++ "\n\n" ++ helpHumLine ++ "\n" ++
        typeHumLine ++ "\n", "\n\n", by rfl⟩

/-! ## Claim C6 -/

set_option maxRecDepth 10000 in
/-- Counterexample for claim C6 as stated: substituting the same sample
values (`NaN`) and the same timestamp into the success-branch layout does not
reproduce the NaN-branch body -- the surrounding whitespace differs between
the two branches. -/
theorem c6_counterexample :
    prometheus_output_nan 0 ≠ prometheus_output_ok "NaN" "NaN" 0 := by
  decide

/-! ## Line structure of the rendered bodies (claim C6)

The integer renderings that appear inside the series lines contain no newline
character, so the newline layout of a body is exactly the layout of its
string template. -/

theorem digitChar_ne_nl (n : ℕ) : Nat.digitChar n ≠ '\n' := by
  obtain h | h : n < 16 ∨ ∃ m, n = m + 16 := by
    rcases Nat.lt_or_ge n 16 with h | h
    · exact Or.inl h
    · exact Or.inr ⟨n - 16, by omega⟩
  · interval_cases n <;> decide
  · obtain ⟨m, rfl⟩ := h
    exact (by decide : ('*' : Char) ≠ '\n')

theorem toDigitsCore_no_nl (b : ℕ) :
    ∀ (f n : ℕ) (acc : List Char), noNewline acc →
      noNewline (Nat.toDigitsCore b f n acc) := by
  intro f
  induction f with
  | zero => intro n acc h; simpa [Nat.toDigitsCore] using h
  | succ f ih =>
    intro n acc h
    simp only [Nat.toDigitsCore]
    split
    · intro c hc
      rcases List.mem_cons.mp hc with h1 | h2
      · subst h1; exact digitChar_ne_nl _
      · exact h c h2
    · apply ih
      intro c hc
      rcases List.mem_cons.mp hc with h1 | h2
      · subst h1; exact digitChar_ne_nl _
      · exact h c h2

theorem toString_int_no_nl (t : ℤ) : noNewline (toString t).data := by
  cases t with
  | ofNat m =>
      exact toDigitsCore_no_nl 10 (m + 1) m []
        (fun c hc => absurd hc (List.not_mem_nil c))
  | negSucc m =>
      intro c hc
      have he : (toString (Int.negSucc m) : String).data =
          ("-" : String).data ++ (toString (m + 1) : String).data := by
        rw [show (toString (Int.negSucc m) : String) = "-" ++ toString (m + 1) from rfl,
          String.data_append]
      rw [he] at hc
      rcases List.mem_append.mp hc with h1 | h2
      · intro heq; subst heq; exact absurd h1 (by decide)
      · exact toDigitsCore_no_nl 10 (m + 1 + 1) (m + 1) []
          (fun c hc => absurd hc (List.not_mem_nil c)) c h2

theorem noNewline_append (a b : List Char) (ha : noNewline a) (hb : noNewline b) :
    noNewline (a ++ b) := by
  intro c hc
  rcases List.mem_append.mp hc with h | h
  · exact ha c h
  · exact hb c h

theorem noNewline_format_1f (v : ℤ) : noNewline (format_1f v).data := by
  have he : (format_1f v).data = (toString v : String).data ++ (".0" : String).data := by
    rw [format_1f, String.data_append]
  rw [he]
  exact noNewline_append _ _ (toString_int_no_nl v) (by decide)

theorem noNewline_tempSeriesLine (v : String) (hv : noNewline v.data) (t : ℤ) :
    noNewline (tempSeriesLine v t).data := by
  have he : (tempSeriesLine v t).data =
      (("temperature\x7bsensor=\"dht11\",location=\"GH_trial\"\x7d " : String).data ++
        v.data ++ (" " : String).data) ++ (toString t : String).data := by
    rw [tempSeriesLine, String.data_append, String.data_append, String.data_append]
  rw [he]
  exact noNewline_append _ _
    (noNewline_append _ _ (noNewline_append _ _ (by decide) hv) (by decide))
    (toString_int_no_nl t)

theorem noNewline_humSeriesLine (v : String) (hv : noNewline v.data) (t : ℤ) :
    noNewline (humSeriesLine v t).data := by
  have he : (humSeriesLine v t).data =
      (("humidity\x7bsensor=\"dht11\",location=\"GH_trial\"\x7d " : String).data ++
        v.data ++ (" " : String).data) ++ (toString t : String).data := by
    rw [humSeriesLine, String.data_append, String.data_append, String.data_append]
  rw [he]
  exact noNewline_append _ _
    (noNewline_append _ _ (noNewline_append _ _ (by decide) hv) (by decide))
    (toString_int_no_nl t)

theorem splitNL_cons_nl (cs : List Char) : splitNL ('\n' :: cs) = [] :: splitNL cs := by
  simp [splitNL]

theorem splitNL_append_line (xs : List Char) (hx : noNewline xs) :
    ∀ (ys l : List Char) (ls : List (List Char)),
      splitNL ys = l :: ls → splitNL (xs ++ ys) = (xs ++ l) :: ls := by
  induction xs with
  | nil => intro ys l ls h; simpa using h
  | cons c xs ih =>
    intro ys l ls h
    have hc : c ≠ '\n' := hx c (List.mem_cons_self c xs)
    have hxs : noNewline xs := fun d hd => hx d (List.mem_cons_of_mem c hd)
    simp only [List.cons_append, splitNL, List.append_eq]
    rw [if_neg hc, ih hxs ys l ls h]

theorem splitNL_line (xs ys : List Char) (hx : noNewline xs) :
    splitNL (xs ++ '\n' :: ys) = xs :: splitNL ys := by
  have h := splitNL_append_line xs hx ('\n' :: ys) [] (splitNL ys) (splitNL_cons_nl ys)
  simpa using h

theorem tempSeriesLine_data_ne_nil (v : String) (t : ℤ) :
    (tempSeriesLine v t).data ≠ [] := by
  intro h
  rw [tempSeriesLine, String.data_append, String.data_append, String.data_append] at h
  rcases List.append_eq_nil.mp h with ⟨h1, _⟩
  rcases List.append_eq_nil.mp h1 with ⟨h2, _⟩
  rcases List.append_eq_nil.mp h2 with ⟨h3, _⟩
  exact absurd h3 (by decide)

theorem humSeriesLine_data_ne_nil (v : String) (t : ℤ) :
    (humSeriesLine v t).data ≠ [] := by
  intro h
  rw [humSeriesLine, String.data_append, String.data_append, String.data_append] at h
  rcases List.append_eq_nil.mp h with ⟨h1, _⟩
  rcases List.append_eq_nil.mp h1 with ⟨h2, _⟩
  rcases List.append_eq_nil.mp h2 with ⟨h3, _⟩
  exact absurd h3 (by decide)

theorem nonBlankLines_nan (t : ℤ) :
    nonBlankLines (prometheus_output_nan t) =
      [helpTempLine.data, typeTempLine.data, (tempSeriesLine "NaN" t).data,
       helpHumLine.data, typeHumLine.data, (humSeriesLine "NaN" t).data] := by
  have hd : (prometheus_output_nan t).data =
      '\n' :: '\n' :: (helpTempLine.data ++ '\n' ::
        (typeTempLine.data ++ '\n' :: '\n' ::
          ((tempSeriesLine "NaN" t).data ++ '\n' :: '\n' :: '\n' ::
            (helpHumLine.data ++ '\n' ::
              (typeHumLine.data ++ '\n' ::
                ((humSeriesLine "NaN" t).data ++ ['\n'])))))) := by
    simp [prometheus_output_nan, String.data_append, List.append_assoc]
  unfold nonBlankLines
  rw [hd, splitNL_cons_nl, splitNL_cons_nl,
    splitNL_line _ _ (by decide), splitNL_line _ _ (by decide),
    splitNL_cons_nl,
    splitNL_line _ _ (noNewline_tempSeriesLine "NaN" (by decide) t),
    splitNL_cons_nl, splitNL_cons_nl,
    splitNL_line _ _ (by decide), splitNL_line _ _ (by decide),
    splitNL_line _ _ (noNewline_humSeriesLine "NaN" (by decide) t)]
  have e1 : helpTempLine.data.isEmpty = false := rfl
  have e2 : typeTempLine.data.isEmpty = false := rfl
  have e3 : helpHumLine.data.isEmpty = false := rfl
  have e4 : typeHumLine.data.isEmpty = false := rfl
  simp [splitNL, List.filter, e1, e2, e3, e4,
    List.isEmpty_eq_false.mpr (tempSeriesLine_data_ne_nil "NaN" t),
    List.isEmpty_eq_false.mpr (humSeriesLine_data_ne_nil "NaN" t)]

theorem nonBlankLines_ok (tv hv : String) (htv : noNewline tv.data)
    (hhv : noNewline hv.data) (t : ℤ) :
    nonBlankLines (prometheus_output_ok tv hv t) =
      [helpTempLine.data, typeTempLine.data, (tempSeriesLine tv t).data,
       helpHumLine.data, typeHumLine.data, (humSeriesLine hv t).data] := by
  have hd : (prometheus_output_ok tv hv t).data =
      '\n' :: (helpTempLine.data ++ '\n' ::
        (typeTempLine.data ++ '\n' ::
          ((tempSeriesLine tv t).data ++ '\n' :: '\n' ::
            (helpHumLine.data ++ '\n' ::
              (typeHumLine.data ++ '\n' ::
                ((humSeriesLine hv t).data ++ ['\n', '\n'])))))) := by
    simp [prometheus_output_ok, String.data_append, List.append_assoc]
  unfold nonBlankLines
  rw [hd, splitNL_cons_nl,
    splitNL_line _ _ (by decide), splitNL_line _ _ (by decide),
    splitNL_line _ _ (noNewline_tempSeriesLine tv htv t),
    splitNL_cons_nl,
    splitNL_line _ _ (by decide), splitNL_line _ _ (by decide),
    splitNL_line _ _ (noNewline_humSeriesLine hv hhv t)]
  have e1 : helpTempLine.data.isEmpty = false := rfl
  have e2 : typeTempLine.data.isEmpty = false := rfl
  have e3 : helpHumLine.data.isEmpty = false := rfl
  have e4 : typeHumLine.data.isEmpty = false := rfl
  simp [splitNL, List.filter, e1, e2, e3, e4,
    List.isEmpty_eq_false.mpr (tempSeriesLine_data_ne_nil tv t),
    List.isEmpty_eq_false.mpr (humSeriesLine_data_ne_nil hv t)]

/-- Amended claim C6: for a present reading and an absent reading at the same
timestamp, the two rendered bodies consist of the same fixed HELP/TYPE header
lines and the same two series lines with only the sample values substituted
(`NaN` versus the formatted values); the bodies are not otherwise identical --
their blank-line layout differs between the two branches. -/
theorem c6_same_lines_distinct_layout (a b t : ℤ) :
    nonBlankLines (prometheus_output_nan t) =
      [helpTempLine.data, typeTempLine.data, (tempSeriesLine "NaN" t).data,
       helpHumLine.data, typeHumLine.data, (humSeriesLine "NaN" t).data]
    ∧ nonBlankLines (prometheus_output_ok (format_1f a) (format_1f b) t) =
      [helpTempLine.data, typeTempLine.data, (tempSeriesLine (format_1f a) t).data,
       helpHumLine.data, typeHumLine.data, (humSeriesLine (format_1f b) t).data] :=
  ⟨nonBlankLines_nan t,
   nonBlankLines_ok (format_1f a) (format_1f b) (noNewline_format_1f a)
     (noNewline_format_1f b) t⟩

/-! ## Main-loop lemmas (claims C1, C2, C7, C10) -/

theorem isOk_iff {ε α : Type} (e : Except ε α) : e.isOk = true ↔ ∃ a, e = .ok a := by
  cases e <;> simp [Except.isOk, Except.toBool]

theorem loopIteration_continues (env : IterEnv) :
    (loopIteration env).continues = true := by
  rcases h : tryBody env with ⟨tr, f⟩
  rw [loopIteration, h]
  rcases f with _ | f
  · rfl
  · cases f <;> rfl

theorem loopIteration_trace (env : IterEnv) :
    (loopIteration env).trace = (tryBody env).1 := by
  rcases h : tryBody env with ⟨tr, f⟩
  rw [loopIteration, h]
  rcases f with _ | f
  · rfl
  · cases f <;> rfl

theorem closeCalled_eq_preCloseOk (env : IterEnv) :
    (tryBody env).1.closeCalled = preCloseOk env := by
  obtain ⟨w, acc, rcv, sens, now, sh, sb, cl⟩ := env
  unfold tryBody preCloseOk serveConn
  dsimp only
  cases acc with
  | error f => simp [Except.isOk, Except.toBool]
  | ok u =>
    cases rcv with
    | error f => simp [Except.isOk, Except.toBool]
    | ok bs =>
      by_cases hv : utf8Valid bs
      · simp only [hv, if_true, Bool.true_and]
        cases hrd : read_dht_data sens with
        | error f => simp [hrd, Except.isOk, Except.toBool]
        | ok th =>
          obtain ⟨temp, hum⟩ := th
          cases hrm : renderMetrics temp hum now with
          | error f => simp [hrd, hrm, Except.isOk, Except.toBool]
          | ok body =>
            cases sh with
            | error f => simp [hrd, hrm, Except.isOk, Except.toBool]
            | ok u2 =>
              cases sb with
              | error f => simp [hrd, hrm, Except.isOk, Except.toBool]
              | ok u3 =>
                cases cl with
                | error f => simp [hrd, hrm, Except.isOk, Except.toBool]
                | ok u4 => simp [hrd, hrm, Except.isOk, Except.toBool]
      · simp [hv, Except.isOk, Except.toBool]

theorem tryBody_fault_from_close (env : IterEnv) (h : preCloseOk env = true)
    (hf : (tryBody env).2 ≠ none) : ∃ f, env.closeRes = .error f := by
  obtain ⟨w, acc, rcv, sens, now, sh, sb, cl⟩ := env
  unfold preCloseOk at h
  unfold tryBody serveConn at hf
  dsimp only at h hf
  cases acc with
  | error f => simp [Except.isOk, Except.toBool] at h
  | ok u =>
    cases rcv with
    | error f => simp [Except.isOk, Except.toBool] at h
    | ok bs =>
      by_cases hv : utf8Valid bs
      · simp only [hv, if_true, Bool.true_and] at h hf
        cases hrd : read_dht_data sens with
        | error f => simp [hrd, Except.isOk, Except.toBool] at h
        | ok th =>
          obtain ⟨temp, hum⟩ := th
          cases hrm : renderMetrics temp hum now with
          | error f => simp [hrd, hrm, Except.isOk, Except.toBool] at h
          | ok body =>
            cases sh with
            | error f => simp [hrd, hrm, Except.isOk, Except.toBool] at h
            | ok u2 =>
              cases sb with
              | error f => simp [hrd, hrm, Except.isOk, Except.toBool] at h
              | ok u3 =>
                cases cl with
                | error f => exact ⟨f, rfl⟩
                | ok u4 => simp [hrd, hrm, hv] at hf
      · simp [hv, Except.isOk, Except.toBool] at h

/-- Claim C1: every fault raised while servicing a request is caught at the
loop level -- the iteration always continues; a sensor `OSError` with healthy
transport is converted into a served NaN body with the connection closed; and
a fault that does escape the `try` block leaves the connection unclosed
(dropped) unless the fault arose in `conn.close()` itself after the full
response was sent.  No in-loop fault terminates the process. -/
theorem c1_fault_containment (env : IterEnv) :
    (loopIteration env).continues = true
    ∧ (env.sensorRes = .error .osError → transportOk env = true →
        (loopIteration env).trace.sentChunks =
            [httpHeader, prometheus_output_nan env.now]
        ∧ (loopIteration env).trace.closeCalled = true)
    ∧ ((tryBody env).2 ≠ none →
        (loopIteration env).trace.closeCalled = false
        ∨ (∃ f, env.closeRes = .error f)) := by
  refine ⟨loopIteration_continues env, ?_, ?_⟩
  · intro hs htr
    rw [transportOk] at htr
    simp only [Bool.and_eq_true] at htr
    obtain ⟨⟨⟨⟨hacc, hrecv⟩, hsh⟩, hsb⟩, hcl⟩ := htr
    obtain ⟨u1, ha⟩ := (isOk_iff env.acceptRes).mp hacc
    obtain ⟨u2, hshe⟩ := (isOk_iff env.sendHeadRes).mp hsh
    obtain ⟨u3, hsbe⟩ := (isOk_iff env.sendBodyRes).mp hsb
    obtain ⟨u4, hcle⟩ := (isOk_iff env.closeRes).mp hcl
    rcases hr : env.recvRes with f | bs
    · rw [hr] at hrecv; exact absurd hrecv (by simp)
    · rw [hr] at hrecv
      replace hrecv : utf8Valid bs = true := hrecv
      have htb : tryBody env =
          (⟨true, [httpHeader, prometheus_output_nan env.now], true⟩, none) := by
        rw [tryBody, ha, hr]
        simp only [hrecv, if_true]
        rw [serveConn, hs]
        simp only [read_dht_data, renderMetrics, renderBranch]
        rw [hshe, hsbe, hcle]
        simp
      exact ⟨by rw [loopIteration_trace, htb], by rw [loopIteration_trace, htb]⟩
  · intro hf
    cases hb : preCloseOk env with
    | true => exact Or.inr (tryBody_fault_from_close env hb hf)
    | false =>
      left
      rw [loopIteration_trace, closeCalled_eq_preCloseOk, hb]

/-- Witness for C1 at a concrete iteration in which the sensor raises
`OSError` and the transport is healthy: the iteration continues and the NaN
body is served and the connection closed. -/
theorem c1_fault_containment_witness :
    (loopIteration envSensorDown).continues = true
    ∧ ((loopIteration envSensorDown).trace.sentChunks
          = [httpHeader, prometheus_output_nan 1700000000]
        ∧ (loopIteration envSensorDown).trace.closeCalled = true)
    ∧ ((loopIteration envBodySendFail).trace.closeCalled = false
        ∨ (∃ f, envBodySendFail.closeRes = .error f)) :=
  ⟨(c1_fault_containment envSensorDown).1,
   (c1_fault_containment envSensorDown).2.1 rfl (by decide),
   (c1_fault_containment envBodySendFail).2.2 (by decide)⟩

/-- Counterexample for claim C2 as stated: a concrete iteration in which the
client was accepted and the response write was attempted (the header send
succeeded, the body send raised `OSError`), yet `conn.close()` was never
called -- the close at line 140 sits inside the `try` block after the sends,
so a failed write skips it. -/
theorem c2_counterexample :
    (loopIteration envBodySendFail).trace.accepted = true
    ∧ (loopIteration envBodySendFail).trace.sentChunks = [httpHeader]
    ∧ (loopIteration envBodySendFail).trace.closeCalled = false :=
  ⟨rfl, rfl, rfl⟩

/-- Amended claim C2: `conn.close()` is called exactly when every step up to
and including the body write succeeded; when any of those steps faults the
connection is abandoned without a close, but the loop still continues to its
next iteration, so the listener accepts the next client either way. -/
theorem c2_close_iff_write_succeeded (env : IterEnv) :
    (loopIteration env).trace.closeCalled = preCloseOk env
    ∧ (loopIteration env).continues = true :=
  ⟨by rw [loopIteration_trace]; exact closeCalled_eq_preCloseOk env,
   loopIteration_continues env⟩

/-- Counterexample for claim C7 as stated: two iterations with identical
sensor reading and timestamp whose responses differ because of the requests'
bytes alone -- a valid UTF-8 request receives the full response, while the
single byte `0xFF` makes `decode('utf-8')` raise, so that client receives
nothing. -/
theorem c7_counterexample :
    envReqA.sensorRes = envReqBad.sensorRes ∧ envReqA.now = envReqBad.now
    ∧ (loopIteration envReqA).trace.sentChunks ≠
        (loopIteration envReqBad).trace.sentChunks :=
  ⟨rfl, rfl, by decide⟩

/-- Amended claim C7: for two iterations with the same sensor outcome and
timestamp and the same transport outcomes, whose request bytes both decode as
UTF-8, the delivered response chunks and the close behaviour are identical --
the request's bytes, method, path and headers have no influence beyond
decodability. -/
theorem c7_response_independent_of_request (e1 e2 : IterEnv) (b1 b2 : List ℕ)
    (h1 : e1.recvRes = .ok b1) (h2 : e2.recvRes = .ok b2)
    (hv1 : utf8Valid b1 = true) (hv2 : utf8Valid b2 = true)
    (hacc : e1.acceptRes = e2.acceptRes) (hsens : e1.sensorRes = e2.sensorRes)
    (hnow : e1.now = e2.now) (hsh : e1.sendHeadRes = e2.sendHeadRes)
    (hsb : e1.sendBodyRes = e2.sendBodyRes) (hcl : e1.closeRes = e2.closeRes) :
    (loopIteration e1).trace.sentChunks = (loopIteration e2).trace.sentChunks
    ∧ (loopIteration e1).trace.closeCalled =
        (loopIteration e2).trace.closeCalled := by
  have hserve : serveConn e1 = serveConn e2 := by
    unfold serveConn
    rw [hsens, hnow, hsh, hsb, hcl]
  have htb : (tryBody e1).1 = (tryBody e2).1 := by
    unfold tryBody
    rw [h1, h2, ← hacc]
    rcases hA : e1.acceptRes with f | u
    · rfl
    · simp [hv1, hv2, hserve]
  rw [loopIteration_trace, loopIteration_trace, htb]
  exact ⟨rfl, rfl⟩

/-- Witness for amended C7: a `GET / HTTP/1.0` request and a `POST /other`
request, under the same sensor reading and timestamp, receive identical
responses. -/
theorem c7_response_independent_of_request_witness :
    (loopIteration envReqA).trace.sentChunks = (loopIteration envReqB).trace.sentChunks
    ∧ (loopIteration envReqA).trace.closeCalled =
        (loopIteration envReqB).trace.closeCalled :=
  c7_response_independent_of_request envReqA envReqB _ _ rfl rfl (by decide)
    (by decide) rfl rfl rfl rfl rfl rfl

/-- Claim C10: when the received request bytes are not valid UTF-8, the
decode at line 107 raises, the `except Exception` handler catches it, no
response bytes are sent, `conn.close()` is never called, and the loop
continues to its next iteration. -/
theorem c10_invalid_utf8_dropped (env : IterEnv) (bs : List ℕ)
    (hacc : env.acceptRes = .ok ()) (hrecv : env.recvRes = .ok bs)
    (hbad : utf8Valid bs = false) :
    (tryBody env).2 = some .generalError
    ∧ (loopIteration env).trace.sentChunks = []
    ∧ (loopIteration env).trace.closeCalled = false
    ∧ (loopIteration env).continues = true := by
  have htb : tryBody env = (⟨true, [], false⟩, some .generalError) := by
    rw [tryBody, hacc, hrecv]
    simp [hbad]
  exact ⟨by rw [htb], by rw [loopIteration_trace, htb],
    by rw [loopIteration_trace, htb], loopIteration_continues env⟩

/-- Witness for C10 at the concrete request `0xFF`. -/
theorem c10_invalid_utf8_dropped_witness :
    (tryBody envReqBad).2 = some .generalError
    ∧ (loopIteration envReqBad).trace.sentChunks = []
    ∧ (loopIteration envReqBad).trace.closeCalled = false
    ∧ (loopIteration envReqBad).continues = true :=
  c10_invalid_utf8_dropped envReqBad [255] rfl rfl (by decide)
